import Mathlib

/-!
Verification development for the INF scraper-and-notifier repository.

The repository drives a browser engine; its control flow around that engine
is embedded shallowly: each browser interaction of the Python source becomes
an abstract outcome (success, timeout, other exception) supplied by an
environment record, and each pure function of the source is translated
directly.  Definitions named after source symbols (`scrape_inf_data`,
`wait_for_table_change`, `check_if_login_needed`, `ensure_storage_state`,
`filter_items_posted_today`, `log_inf_results`, `clean_numeric_string`,
`main`) follow the corresponding Python functions line by line.
-/

/-- Outcome of one awaited browser step in the Python source: the step either
returns normally, raises the engine's `TimeoutError`, or raises some other
exception.  The source distinguishes exactly these three cases with
`except TimeoutError` and bare `except Exception` handlers. -/
inductive StepOutcome
  | ok
  | timeoutErr
  | otherErr
deriving DecidableEq, Repr

/-- One scraped row of the report table, as built by the row-extraction loop
of `scrape_inf_data` in src/scraper.py / src/inf.py: the six string fields of
the dict appended to `items`. -/
structure InfItem where
  image_url : String
  sku : String
  product_name : String
  inf_units : String
  orders_impacted : String
  inf_pct : String
deriving DecidableEq, Repr

/-- Result of extracting one `<tr>` in the row loop: the `try` body either
produces the item dict or raises, in which case the bare
`except Exception` handler logs a warning and the row is skipped. -/
inductive RowFetch
  | ok (it : InfItem)
  | failed
deriving DecidableEq, Repr

/-- Environment of one call to `scrape_inf_data` (src/inf.py lines 228-307,
src/scraper.py lines 34-127): the outcome of each awaited step and the
per-row extraction results.
`nav` is `page.goto` plus the `#range-selector` visibility wait; `filterStep`
the `wait_for_table_change` around the Yesterday link (evaluated only when
`fetch_yesterday`); `rowProbe` the 20s first-row visibility wait —
a web-first assertion `expect(...).to_be_visible(timeout=20000)` whose
expiry raises `AssertionError`, which is not the engine's `TimeoutError`
and therefore lands in `otherErr`; its `timeoutErr` value stands for an
engine `TimeoutError` raised inside the probe, which the assertion API
does not produce — `pageSizeStep` the `wait_for_table_change` around the
pageSize `<select>` (whose `page.wait_for_function` and `select_option`
do raise the engine `TimeoutError`); `sortStep` the `wait_for_table_change`
around the `#sort-3` click. -/
structure ScrapeEnv where
  nav : StepOutcome
  fetch_yesterday : Bool
  filterStep : StepOutcome
  rowProbe : StepOutcome
  pageSizeStep : StepOutcome
  sortStep : StepOutcome
  rows : List RowFetch

/-- The row-extraction loop of `scrape_inf_data`: each row's `try` body either
appends its item or is skipped by the per-row handler; remaining rows are
always processed. -/
def extractRows : List RowFetch → List InfItem
  | [] => []
  | RowFetch.ok it :: rest => it :: extractRows rest
  | RowFetch.failed :: rest => extractRows rest

/-- `scrape_inf_data` (src/inf.py 228-307, src/scraper.py 34-127).  Returns
`none` for the Python `None` failure marker (outer `except Exception`) and
`some items` on success.  The `rowProbe` handler `except TimeoutError:
return []` is translated as the `timeoutErr => some []` arm, but the probe's
wait-expiry raises `AssertionError` (an `otherErr`), so a zero-row table
reaches the outer handler and returns `none` — the `some []` arm is dead
code for the no-rows condition (see the C1 theorem).  A `timeoutErr` of
`pageSizeStep` is caught (`except TimeoutError` with a warning) and the
scrape proceeds; its `otherErr`, and every failure of `sortStep`, reach the
outer handler. -/
def scrape_inf_data (env : ScrapeEnv) : Option (List InfItem) :=
  match env.nav with
  | .timeoutErr => none
  | .otherErr => none
  | .ok =>
  match (if env.fetch_yesterday then env.filterStep else .ok) with
  | .timeoutErr => none
  | .otherErr => none
  | .ok =>
  match env.rowProbe with
  | .timeoutErr => some []
  | .otherErr => none
  | .ok =>
  match env.pageSizeStep with
  | .otherErr => none
  | _ =>
  match env.sortStep with
  | .timeoutErr => none
  | .otherErr => none
  | .ok => some (extractRows env.rows)

/-- What `main` does with the scrape result (src/inf.py lines 436-443):
`None` aborts notifications with an error log, the empty list is logged as a
normal no-items run, and a non-empty list is logged and posted. -/
inductive MainOutcome
  | abortNotifications
  | noItemsRun
  | logAndNotify
deriving DecidableEq, Repr

/-- The `if data is None / elif not data / else` dispatch of `main`
(src/inf.py lines 436-443). -/
def main_dispatch : Option (List InfItem) → MainOutcome
  | none => .abortNotifications
  | some [] => .noItemsRun
  | some (_ :: _) => .logAndNotify

/-! ### The table-mutation-wait protocol (`wait_for_table_change`) -/

/-- The pre-action snapshot taken by `wait_for_table_change` (src/scraper.py
lines 17-20): the first row's text content, or the empty-string sentinel when
no first row exists (`text0 = ""` with `if await first.count() > 0`). -/
def snapshotText : Option String → String
  | none => ""
  | some t => t

/-- Whitespace stripping at both ends of a character list; shared model of
the JS `String.prototype.trim` used by the polled predicate and of the
stripping Python's `int(str)` performs (ASCII whitespace). -/
def trimWs (l : List Char) : List Char :=
  ((l.dropWhile Char.isWhitespace).reverse.dropWhile Char.isWhitespace).reverse

/-- JS `str.trim()`. -/
def trimStr (s : String) : String := String.mk (trimWs s.toList)

/-- The predicate polled by `page.wait_for_function` (src/scraper.py lines
23-31): with no first-row element it is `init !== ''`; otherwise it is
`el.textContent.trim() !== init.trim()`. -/
def tablePred (init : String) : Option String → Bool
  | none => init != ""
  | some t => trimStr t != trimStr init

/-- Bounded polling loop: checks ticks `start, start+1, ...` while fuel
lasts and returns the first tick satisfying the predicate; `none` models the
`TimeoutError` raised when the budget is exhausted. -/
def waitLoop (pred : Nat → Bool) : Nat → Nat → Option Nat
  | 0, _ => none
  | fuel+1, t => if pred t then some t else waitLoop pred fuel (t+1)

/-- `page.wait_for_function(..., timeout=WAIT_TIMEOUT)`: poll the predicate
over the post-action DOM states until it fires or the bounded wait expires. -/
def wait_for_function (pred : Nat → Bool) (timeout : Nat) : Option Nat :=
  waitLoop pred timeout 0

/-- `wait_for_table_change` (src/scraper.py lines 14-31, src/inf.py lines
207-226).  `pre` is the first row's state before the action (text content,
or `none` when no row exists); `trace t` is the first row's state at poll
tick `t` after the action and the fixed settle delay (`asyncio.sleep
(TABLE_POLL_DELAY)`); the action itself and the delay are folded into where
the trace starts.  Returns the tick at which the polled predicate first
fires, or `none` for the timeout. -/
def wait_for_table_change (pre : Option String) (trace : Nat → Option String)
    (timeout : Nat) : Option Nat :=
  wait_for_function (fun t => tablePred (snapshotText pre) (trace t)) timeout

/-- The completion condition exactly as claim C3 states it (raw text-content
comparison): the first row's text content differs from the snapshot, or a
first row exists where none existed before. -/
def statedCond (pre cur : Option String) : Prop :=
  (∃ s, cur = some s ∧ s ≠ snapshotText pre) ∨ (pre = none ∧ ∃ s, cur = some s)

/-- The completion condition the code actually implements, stated at the
spec level: the first row's whitespace-trimmed text differs from the trimmed
snapshot, or every row disappeared while the snapshot was non-empty. -/
def amendedCond (pre cur : Option String) : Prop :=
  (∃ s, cur = some s ∧ trimStr s ≠ trimStr (snapshotText pre)) ∨
    (cur = none ∧ snapshotText pre ≠ "")

/-! ### Session validation (`check_if_login_needed`, `ensure_storage_state`) -/

/-- Whether the first list is an initial segment of the second. -/
def leadsWith : List Char → List Char → Bool
  | [], _ => true
  | _ :: _, [] => false
  | p :: ps, c :: cs => (p = c) && leadsWith ps cs

/-- Whether the pattern occurs as a contiguous segment of the list. -/
def occursIn (pat : List Char) : List Char → Bool
  | [] => leadsWith pat []
  | c :: cs => leadsWith pat (c :: cs) || occursIn pat cs

/-- Python's `pat in s` substring test. -/
def pyIn (pat s : String) : Bool := occursIn pat.toList s.toList

/-- Python's `str.lower()` (the URLs compared are ASCII). -/
def pyLower (s : String) : String := String.mk (s.toList.map Char.toLower)

/-- Environment of one call to `check_if_login_needed` (src/auth.py lines
43-54, src/inf.py lines 117-128): the outcome of `page.goto`, the resulting
`page.url`, and the outcome of the `#range-selector` visibility wait. -/
structure ProbeEnv where
  gotoStep : StepOutcome
  url : String
  markerStep : StepOutcome

/-- `check_if_login_needed` (src/auth.py lines 43-54).  Inside one `try`:
navigate, classify a sign-in redirect by URL patterns, then wait for the
authenticated-page marker; `except Exception` returns `True`
("login required"). -/
def check_if_login_needed (env : ProbeEnv) : Bool :=
  match env.gotoStep with
  | .timeoutErr => true
  | .otherErr => true
  | .ok =>
    if pyIn "signin" (pyLower env.url) || pyIn "/ap/" env.url then true
    else
      match env.markerStep with
      | .ok => false
      | .timeoutErr => true
      | .otherErr => true

/-- A cookie entry of the persisted storage-state blob; its contents are
never inspected by `ensure_storage_state`, only counted. -/
structure Cookie where
  name : String
deriving DecidableEq, Repr

/-- What `json.load` can make of the storage-state file: a non-dict value, or
a dict whose `"cookies"` key is absent (`none`) or holds a cookie list. -/
inductive StorageJson
  | nonDict
  | dict (cookies : Option (List Cookie))
deriving DecidableEq, Repr

/-- State of the persisted `state.json` blob: absent, or present with a byte
size and a parse result (`none` models a `json.load` exception). -/
inductive StorageFile
  | absent
  | present (size : Nat) (parse : Option StorageJson)
deriving DecidableEq, Repr

/-- `ensure_storage_state` (src/auth.py lines 34-41, src/inf.py lines
108-115): false when the file is missing or zero-sized; any parse exception
is caught and yields false; otherwise the truthiness of
`isinstance(data, dict) and data.get("cookies")` (the Python function
returns the cookie list itself; its truthiness is modelled). -/
def ensure_storage_state : StorageFile → Bool
  | .absent => false
  | .present 0 _ => false
  | .present (_+1) none => false
  | .present (_+1) (some .nonDict) => false
  | .present (_+1) (some (.dict none)) => false
  | .present (_+1) (some (.dict (some cs))) => !cs.isEmpty

/-! ### Same-day duplicate suppression and the run log (src/notifications.py) -/

/-- A candidate item as seen by `filter_items_posted_today`: only its
`"sku"` key is consulted; `none` models an absent key (`item.get("sku")`
returning Python `None`). -/
structure Item where
  sku : Option String
deriving DecidableEq, Repr

/-- Python's `str()` as applied to an optional SKU: `str(None)` is the
string `"None"`. -/
def pyStr : Option String → String
  | none => "None"
  | some s => s

/-- The `"timestamp"` field of one parsed log line: absent or falsy
(`if not timestamp: continue`), present but rejected by
`datetime.strptime` (`except ValueError: continue`), or parsed to a
calendar day (days are abstracted to an index in the local time zone). -/
inductive TSField
  | missing
  | unparseable
  | parsed (day : Nat)
deriving DecidableEq, Repr

/-- One well-formed (JSON-parseable) run-log entry: its timestamp field and
the `"sku"` values of its `"inf_items"` (each possibly absent). -/
structure LogEntry where
  ts : TSField
  inf_skus : List (Option String)
deriving DecidableEq, Repr

/-- One line of the run log as read back: JSON-malformed lines are skipped
with a warning (blank lines are also skipped and are subsumed here). -/
inductive LogLine
  | malformed
  | entry (e : LogEntry)
deriving DecidableEq, Repr

/-- State of the run-log file when `filter_items_posted_today` opens it:
missing (`FileNotFoundError`), unreadable (any other read exception), or
readable with its lines. -/
inductive LogFile
  | missing
  | readError
  | content (lines : List LogLine)

/-- The SKUs one log line contributes to `posted_skus`: only a well-formed
entry whose timestamp parsed to the current day, and only those of its items
whose `"sku"` is present and truthy (a non-empty string). -/
def entrySkusToday (today : Nat) : LogLine → List String
  | .malformed => []
  | .entry e =>
    match e.ts with
    | .parsed d =>
      if d = today then
        e.inf_skus.filterMap (fun o =>
          match o with
          | some s => if s = "" then none else some s
          | none => none)
      else []
    | .missing => []
    | .unparseable => []

/-- The `posted_skus` accumulation of `filter_items_posted_today`
(src/notifications.py lines 61-93), folded over the log's lines. -/
def postedSkus (today : Nat) : List LogLine → List String
  | [] => []
  | l :: rest => entrySkusToday today l ++ postedSkus today rest

/-- `filter_items_posted_today` (src/notifications.py lines 52-114): empty
input short-circuits; a missing or unreadable log returns the batch
unchanged; otherwise items whose `str(item.get("sku"))` is among today's
posted SKUs are removed, keeping order. -/
def filter_items_posted_today (today : Nat) (log : LogFile) (items : List Item) :
    List Item :=
  if items.isEmpty then []
  else
    match log with
    | .missing => items
    | .readError => items
    | .content lines =>
      let posted := postedSkus today lines
      if posted.isEmpty then items
      else items.filter (fun it => !(posted.contains (pyStr it.sku)))

/-- State of the run-log file's filesystem surroundings for
`log_inf_results`: whether the directory holding `JSON_LOG_FILE` exists,
and the lines already in the file (each line is the `inf_items` payload of
one appended entry). -/
structure RunLogFs where
  dirExists : Bool
  lines : List (List Item)
deriving DecidableEq, Repr

/-- `log_inf_results` (src/notifications.py lines 37-49, src/inf.py lines
193-205).  Opening `JSON_LOG_FILE` in append mode raises
`FileNotFoundError` when the containing directory is missing; the function's
bare `except Exception` handler only logs "Log write error", so in that case
nothing is written and no directory is created (the source contains no
`os.makedirs` call).  With the directory present the entry is appended as
one line. -/
def log_inf_results (fs : RunLogFs) (data : List Item) : RunLogFs :=
  if fs.dirExists then { fs with lines := fs.lines ++ [data] }
  else fs

/-! ### `clean_numeric_string` (src/database.py lines 13-18) -/

/-- The inputs `clean_numeric_string` is claimed to be total over: a string,
Python `None`, or a non-string value.  `None` and the modelled non-string
values (numbers, lists, dicts) have no `.replace(str, str)` method, so
`value.replace(",", "")` raises `AttributeError` there, which the handler
catches. -/
inductive PyVal
  | pynone
  | pystr (s : String)
  | nonStrValue
deriving DecidableEq, Repr

/-- `value.replace(",", "")`: every comma is removed. -/
def removeCommas (s : String) : String :=
  String.mk (s.toList.filter (fun c => c ≠ ','))

/-- Base-10 value of a digit list. -/
def digitsVal (l : List Char) : Nat :=
  l.foldl (fun n c => 10 * n + (c.toNat - 48)) 0

/-- Underscore removal inside a digit group (Python `int` accepts single
underscores between digits and ignores them for the value). -/
def stripUnd (l : List Char) : List Char := l.filter (fun c => c ≠ '_')

/-- Continuation of a digit group for Python's `int(str)`: digits, where an
underscore may appear only between two digits. -/
def udRest : List Char → Bool
  | [] => true
  | c :: rest =>
    if c.isDigit then udRest rest
    else if c = '_' then
      match rest with
      | [] => false
      | d :: rest2 => d.isDigit && udRest rest2
    else false

/-- A valid unsigned digit group for Python's `int(str)`: non-empty, starts
with a digit, underscores only between digits. -/
def ud : List Char → Bool
  | [] => false
  | c :: rest => c.isDigit && udRest rest

/-- Python's `int(str)` on a character list already stripped of whitespace:
an optional sign followed by a valid digit group; `none` models the
`ValueError` raised otherwise.  (Non-ASCII digits are outside the model.) -/
def pyIntParseL (l : List Char) : Option Int :=
  match l with
  | [] => none
  | c :: rest =>
    if c = '+' then
      if ud rest then some ((digitsVal (stripUnd rest) : Nat) : Int) else none
    else if c = '-' then
      if ud rest then some (-((digitsVal (stripUnd rest) : Nat) : Int)) else none
    else if ud (c :: rest) then
      some ((digitsVal (stripUnd (c :: rest)) : Nat) : Int)
    else none

/-- Python's `int(str)`: surrounding whitespace is stripped, then an
optional sign and a digit group (underscores allowed between digits) are
parsed; `none` models `ValueError`. -/
def pyIntParse (s : String) : Option Int := pyIntParseL (trimWs s.toList)

/-- `clean_numeric_string` (src/database.py lines 13-18):
`int(value.replace(",", ""))` with `ValueError` (parse failure) and
`AttributeError` (no `.replace`: `None` or another non-string) returning 0. -/
def clean_numeric_string : PyVal → Int
  | .pystr s => (pyIntParse (removeCommas s)).getD 0
  | .pynone => 0
  | .nonStrValue => 0

/-- The input class named by claim C10's positive branch, following its
words: a string consisting of an optionally comma-separated integer literal
(digits and commas only, at least one digit). -/
def commaSeparatedIntegerSpec (s : String) : Bool :=
  s.toList.all (fun c => c.isDigit || c = ',') && s.toList.any (fun c => c.isDigit)

/-! ### `main` (src/inf.py lines 400-447) and the retry constants -/

/-- `LOGIN_RETRIES` (src/settings.py line 113).  Declared with value 3; no
function under src/ reads it. -/
def LOGIN_RETRIES : Nat := 3

/-- `SCRAPE_RETRIES` (src/settings.py line 114).  Declared with value 3; no
function under src/ reads it. -/
def SCRAPE_RETRIES : Nat := 3

/-- `WORKER_RETRY_COUNT` (src/inf.py line 84).  Declared with value 3; never
read. -/
def WORKER_RETRY_COUNT : Nat := 3

/-- Environment of one `main` run (src/inf.py lines 400-447).  The login and
scrape oracles give the outcome the k-th login attempt
(`prime_master_session`) or the k-th scrape attempt (`scrape_inf_data`)
would have, so that retry behaviour is expressible; which indices `main`
consults is what the theorems establish. -/
structure MainEnv where
  storage : StorageFile
  probe : ProbeEnv
  login_attempts : Nat → Bool
  scrape_attempts : Nat → Option (List InfItem)

/-- Terminal outcome of one `main` run: the early return after a failed
login ("Login failed; aborting run"), or completion with the scrape-result
dispatch of lines 436-443. -/
inductive RunResult
  | abortedLogin
  | finished (outcome : MainOutcome)
deriving DecidableEq, Repr

/-- `main` (src/inf.py lines 400-447): `login_required` starts `True` and is
refined by `check_if_login_needed` only when `ensure_storage_state()` holds;
a required login calls `prime_master_session` once and aborts the run on its
failure; then `scrape_inf_data` is called once and its result dispatched.
(Browser startup/shutdown and the storage reload are outside the model; the
source symbol is `main`, a name Lean reserves, hence `main_run`.) -/
def main_run (env : MainEnv) : RunResult :=
  let login_required :=
    if ensure_storage_state env.storage then check_if_login_needed env.probe
    else true
  if login_required && !(env.login_attempts 0) then .abortedLogin
  else .finished (main_dispatch (env.scrape_attempts 0))

/-- A login oracle that fails on the first attempt and succeeds from the
second attempt on: the failing input for claim C6. -/
def flaky_login (k : Nat) : Bool := decide (1 ≤ k)

/-- A scrape oracle whose first attempt fails and whose second attempt
returns the confirmed-empty success: the failing input for claim C6's
scrape half. -/
def flaky_scrape (k : Nat) : Option (List InfItem) :=
  if k = 0 then none else some []

/-- A small concrete item used by witnesses. -/
def mkItem (i : Nat) : InfItem :=
  { image_url := "img", sku := "SKU-" ++ toString i, product_name := "P",
    inf_units := "1", orders_impacted := "1", inf_pct := "1%" }

/-! ## Helper lemmas -/

theorem extractRows_map_ok (A : List InfItem) :
    extractRows (A.map RowFetch.ok) = A := by
  induction A with
  | nil => rfl
  | cons a t ih => simp [extractRows, ih]

theorem extractRows_append (l1 l2 : List RowFetch) :
    extractRows (l1 ++ l2) = extractRows l1 ++ extractRows l2 := by
  induction l1 with
  | nil => rfl
  | cons a t ih => cases a <;> simp [extractRows, ih]

theorem scrape_ok_reduce (fy : Bool) (fil ps : StepOutcome)
    (rows : List RowFetch) (hfil : fy = true → fil = .ok)
    (hps : ps ≠ .otherErr) :
    scrape_inf_data ⟨.ok, fy, fil, .ok, ps, .ok, rows⟩
      = some (extractRows rows) := by
  cases fy with
  | false =>
    cases ps with
    | ok => rfl
    | timeoutErr => rfl
    | otherErr => exact absurd rfl hps
  | true =>
    have h := hfil rfl
    subst h
    cases ps with
    | ok => rfl
    | timeoutErr => rfl
    | otherErr => exact absurd rfl hps

/-! ## Claim theorems -/

/-- Claim C1 (evaluation at the failing input): the "confirmed empty"
outcome is unreachable.  The first-row probe is the web-first assertion
`expect(...).to_be_visible(timeout=20000)`, which raises `AssertionError`
when its bounded wait expires — not the engine's `TimeoutError` — so the
`except TimeoutError: return []` handler (src/scraper.py lines 70-72,
src/inf.py lines 258-260) never fires for a zero-row table: the
`AssertionError` reaches the outer handler and the attempt returns the
failure marker `none`, which `main` (src/inf.py lines 436-443) treats by
aborting logging and notification instead of the normal no-items run the
claim requires.  The last conjunct exhibits the dead handler: only an
engine `TimeoutError` inside the probe, which the assertion API does not
raise, would produce the claimed `some []`. -/
theorem C1_zero_rows_not_distinct :
    scrape_inf_data ⟨.ok, false, .ok, .otherErr, .ok, .ok, []⟩ = none
  ∧ main_dispatch (scrape_inf_data ⟨.ok, false, .ok, .otherErr, .ok, .ok, []⟩)
      = .abortNotifications
  ∧ main_dispatch (some []) = .noItemsRun
  ∧ scrape_inf_data ⟨.ok, false, .ok, .timeoutErr, .ok, .ok, []⟩ = some [] := by
  exact ⟨rfl, rfl, rfl, rfl⟩

/-- Claim C2: row-level fault isolation.  If the rows are any prefix of
successful extractions, one row whose field extraction raises, and any
suffix of successful extractions, the scrape returns exactly the prefix
items followed by the suffix items, in original row order. -/
theorem C2_row_fault_isolation (fy : Bool) (fil ps : StepOutcome)
    (A B : List InfItem) (hfil : fy = true → fil = .ok)
    (hps : ps ≠ .otherErr) :
    scrape_inf_data ⟨.ok, fy, fil, .ok, ps, .ok,
        A.map RowFetch.ok ++ RowFetch.failed :: B.map RowFetch.ok⟩
      = some (A ++ B) := by
  rw [scrape_ok_reduce fy fil ps _ hfil hps, extractRows_append,
    extractRows_map_ok]
  show some (A ++ extractRows (RowFetch.failed :: B.map RowFetch.ok)) = _
  rw [show extractRows (RowFetch.failed :: B.map RowFetch.ok)
      = extractRows (B.map RowFetch.ok) from rfl, extractRows_map_ok]

/-- Witness for C2: with 10 rows of which row 3 raises, the scrape returns
exactly the 9 items for rows 1-2 and 4-10, in order. -/
theorem C2_row_fault_isolation_witness :
    scrape_inf_data ⟨.ok, false, .ok, .ok, .ok, .ok,
        [mkItem 1, mkItem 2].map RowFetch.ok ++ RowFetch.failed ::
          [mkItem 4, mkItem 5, mkItem 6, mkItem 7, mkItem 8, mkItem 9,
            mkItem 10].map RowFetch.ok⟩
      = some [mkItem 1, mkItem 2, mkItem 4, mkItem 5, mkItem 6, mkItem 7,
          mkItem 8, mkItem 9, mkItem 10] := by
  have h := C2_row_fault_isolation false .ok .ok [mkItem 1, mkItem 2]
    [mkItem 4, mkItem 5, mkItem 6, mkItem 7, mkItem 8, mkItem 9, mkItem 10]
    (fun _ => rfl) (by decide)
  simpa using h

/-- Claim C7: asymmetric fatality of the two table manipulations.  A timeout
of the page-size-widening step is caught and the attempt still returns a
success outcome (the extracted rows), whereas any failure of the sort step
(timeout or other exception) makes the whole attempt return the failure
marker `none`. -/
theorem C7_pagesize_vs_sort (fy : Bool) (fil sort : StepOutcome)
    (rows : List RowFetch) (hfil : fy = true → fil = .ok) :
    scrape_inf_data ⟨.ok, fy, fil, .ok, .timeoutErr, .ok, rows⟩
      = some (extractRows rows)
  ∧ (sort ≠ .ok → ∀ ps, ps ≠ .otherErr →
      scrape_inf_data ⟨.ok, fy, fil, .ok, ps, sort, rows⟩ = none) := by
  constructor
  · exact scrape_ok_reduce fy fil .timeoutErr rows hfil (by decide)
  · intro hsort ps hps
    cases fy with
    | false =>
      cases ps <;> cases sort <;>
        first
        | rfl
        | exact absurd rfl hps
        | exact absurd rfl hsort
    | true =>
      have h := hfil rfl
      subst h
      cases ps <;> cases sort <;>
        first
        | rfl
        | exact absurd rfl hps
        | exact absurd rfl hsort

/-- Witness for C7: with one extractable row, a page-size timeout still
yields that row as a success, while a sort timeout yields the failure
marker. -/
theorem C7_pagesize_vs_sort_witness :
    scrape_inf_data ⟨.ok, false, .ok, .ok, .timeoutErr, .ok,
        [RowFetch.ok (mkItem 1)]⟩ = some [mkItem 1] ∧
    scrape_inf_data ⟨.ok, false, .ok, .ok, .ok, .timeoutErr,
        [RowFetch.ok (mkItem 1)]⟩ = none := by
  have h := C7_pagesize_vs_sort false .ok .timeoutErr
    [RowFetch.ok (mkItem 1)] (fun _ => rfl)
  exact ⟨h.1, h.2 (by decide) .ok (by decide)⟩

/-- Claim C4: session validation is fail-closed.  Any exception during
probing (navigation failure or the marker never becoming visible) makes
`check_if_login_needed` return `true` ("login needed"); it returns `false`
("still valid") exactly when navigation succeeded, the probe URL matched no
sign-in-redirect pattern, and the authenticated-page marker became
visible. -/
theorem C4_session_fail_closed (env : ProbeEnv) :
    (env.gotoStep ≠ .ok → check_if_login_needed env = true)
  ∧ (env.markerStep ≠ .ok → check_if_login_needed env = true)
  ∧ (check_if_login_needed env = false ↔
      env.gotoStep = .ok ∧ pyIn "signin" (pyLower env.url) = false ∧
      pyIn "/ap/" env.url = false ∧ env.markerStep = .ok) := by
  obtain ⟨g, url, m⟩ := env
  cases g <;> cases m <;>
    by_cases h1 : pyIn "signin" (pyLower url) = true <;>
    by_cases h2 : pyIn "/ap/" url = true <;>
      simp_all [check_if_login_needed]

/-- Witness for C4: a probe whose navigation raises reports "login needed";
a probe that reaches the report page with its marker visible reports
"still valid"; a sign-in-redirect URL reports "login needed". -/
theorem C4_session_fail_closed_witness :
    check_if_login_needed ⟨.otherErr, "x", .ok⟩ = true ∧
    check_if_login_needed
      ⟨.ok, "https://sellercentral.amazon.co.uk/snow-inventory", .ok⟩ = false ∧
    check_if_login_needed
      ⟨.ok, "https://www.amazon.co.uk/ap/signin?x=1", .timeoutErr⟩ = true := by
  refine ⟨(C4_session_fail_closed ⟨.otherErr, "x", .ok⟩).1 (by decide),
    (C4_session_fail_closed
      ⟨.ok, "https://sellercentral.amazon.co.uk/snow-inventory", .ok⟩).2.2.mpr
      ⟨rfl, by decide, by decide, rfl⟩,
    (C4_session_fail_closed
      ⟨.ok, "https://www.amazon.co.uk/ap/signin?x=1", .timeoutErr⟩).2.1
      (by decide)⟩

/-- Claim C8: `ensure_storage_state` is truthy exactly when the persisted
blob exists with non-zero size, parses as a dict, and holds a non-empty
cookie collection; every other file state, including unparseable content,
yields falsy (the parse exception is caught, never re-raised). -/
theorem C8_storage_state_validity (fs : StorageFile) :
    ensure_storage_state fs = true ↔
      ∃ n cs, fs = .present (n+1) (some (.dict (some cs))) ∧ cs ≠ [] := by
  cases fs with
  | absent => simp [ensure_storage_state]
  | present size parse =>
    cases size with
    | zero => simp [ensure_storage_state]
    | succ n =>
      cases parse with
      | none => simp [ensure_storage_state]
      | some j =>
        cases j with
        | nonDict => simp [ensure_storage_state]
        | dict ck =>
          cases ck with
          | none => simp [ensure_storage_state]
          | some cs =>
            cases cs with
            | nil => simp [ensure_storage_state]
            | cons a t =>
              simp only [ensure_storage_state, List.isEmpty_cons,
                Bool.not_false]
              constructor
              · intro _
                exact ⟨n, a :: t, rfl, by simp⟩
              · intro _
                trivial

/-- Claim C9 (evaluation at the failing input): with the directory holding
the run-log file absent, `log_inf_results` writes nothing and creates no
directory — the append-mode open raises `FileNotFoundError`, the bare
handler only logs "Log write error", and the source has no `os.makedirs`.
This contradicts the claim (and the repository's own test
`test_log_inf_results_creates_missing_directory`), which require the
directory to be created and the entry appended as one log line. -/
theorem C9_missing_dir_no_write :
    (log_inf_results ⟨false, []⟩ [⟨some "SKU-99"⟩]).lines = [] ∧
    (log_inf_results ⟨false, []⟩ [⟨some "SKU-99"⟩]).dirExists = false ∧
    (log_inf_results ⟨true, []⟩ [⟨some "SKU-99"⟩]).lines
      = [[⟨some "SKU-99"⟩]] := by
  exact ⟨rfl, rfl, rfl⟩

/-- Claim C6 (evaluation at the failing input): `main` performs exactly one
login attempt and one scrape attempt.  With a login oracle that fails on
attempt 0 but succeeds from attempt 1 on, the run is aborted after the
single failed attempt, although the claimed 3-attempt bound
(`LOGIN_RETRIES`) is far from exhausted; likewise a scrape oracle failing
only on attempt 0 surfaces the failure marker to the dispatch instead of
being retried.  The retry counts are declared (src/settings.py lines
113-114, src/inf.py line 84) but never read. -/
theorem C6_no_retry_loop :
    LOGIN_RETRIES = 3 ∧ SCRAPE_RETRIES = 3 ∧ WORKER_RETRY_COUNT = 3
  ∧ flaky_login 0 = false ∧ flaky_login 1 = true
  ∧ main_run ⟨.absent, ⟨.ok, "x", .ok⟩, flaky_login, fun _ => none⟩
      = .abortedLogin
  ∧ flaky_scrape 0 = none ∧ flaky_scrape 1 = some []
  ∧ main_run ⟨.absent, ⟨.ok, "x", .ok⟩, fun _ => true, flaky_scrape⟩
      = .finished .abortNotifications := by
  exact ⟨rfl, rfl, rfl, rfl, rfl, rfl, rfl, rfl, rfl⟩

theorem optSku_eq_some (o : Option String) (s : String) :
    (match o with
      | some a => if a = "" then none else some a
      | none => none) = some s ↔ o = some s ∧ s ≠ "" := by
  cases o with
  | none => simp
  | some a =>
    show (if a = "" then none else some a) = some s ↔ _
    by_cases ha : a = ""
    · subst ha
      rw [if_pos rfl]
      constructor
      · intro h; simp at h
      · rintro ⟨h1, h2⟩
        injection h1 with h1
        exact absurd h1.symm h2
    · rw [if_neg ha]
      constructor
      · intro h
        injection h with h
        subst h
        exact ⟨rfl, ha⟩
      · rintro ⟨h1, h2⟩
        injection h1 with h1
        rw [h1]

theorem mem_entrySkusToday (today : Nat) (l : LogLine) (s : String) :
    s ∈ entrySkusToday today l ↔
      ∃ e, l = .entry e ∧ e.ts = .parsed today ∧
        some s ∈ e.inf_skus ∧ s ≠ "" := by
  cases l with
  | malformed => simp [entrySkusToday]
  | entry e =>
    obtain ⟨ts, skus⟩ := e
    cases ts with
    | missing => simp [entrySkusToday]
    | unparseable => simp [entrySkusToday]
    | parsed d =>
      by_cases hd : d = today
      · subst hd
        have hred : entrySkusToday d (.entry ⟨.parsed d, skus⟩)
            = skus.filterMap (fun o =>
                match o with
                | some a => if a = "" then none else some a
                | none => none) := by
          simp [entrySkusToday]
        rw [hred]
        rw [List.mem_filterMap]
        constructor
        · rintro ⟨o, ho, hf⟩
          obtain ⟨h1, h2⟩ := (optSku_eq_some o s).mp hf
          subst h1
          exact ⟨⟨.parsed d, skus⟩, rfl, rfl, ho, h2⟩
        · rintro ⟨e2, he, hts, hmem, hne⟩
          injection he with he
          subst he
          exact ⟨some s, hmem, (optSku_eq_some (some s) s).mpr ⟨rfl, hne⟩⟩
      · have hred : entrySkusToday today (.entry ⟨.parsed d, skus⟩) = [] := by
          simp [entrySkusToday, hd]
        rw [hred]
        simp only [List.not_mem_nil, false_iff]
        rintro ⟨e2, he, hts, -, -⟩
        injection he with he
        subst he
        have : TSField.parsed d = TSField.parsed today := hts
        injection this with h2
        exact hd h2

theorem mem_postedSkus (today : Nat) (lines : List LogLine) (s : String) :
    s ∈ postedSkus today lines ↔
      ∃ e, LogLine.entry e ∈ lines ∧ e.ts = .parsed today ∧
        some s ∈ e.inf_skus ∧ s ≠ "" := by
  induction lines with
  | nil => simp [postedSkus]
  | cons l rest ih =>
    show s ∈ entrySkusToday today l ++ postedSkus today rest ↔ _
    rw [List.mem_append, ih, mem_entrySkusToday]
    constructor
    · rintro (⟨e, he, h1, h2, h3⟩ | ⟨e, he, h1, h2, h3⟩)
      · exact ⟨e, by rw [he]; exact List.mem_cons_self _ _, h1, h2, h3⟩
      · exact ⟨e, List.mem_cons_of_mem _ he, h1, h2, h3⟩
    · rintro ⟨e, he, h1, h2, h3⟩
      rcases List.mem_cons.mp he with h | h
      · exact Or.inl ⟨e, h.symm, h1, h2, h3⟩
      · exact Or.inr ⟨e, h, h1, h2, h3⟩

/-- Claim C5: same-day duplicate suppression.  On a readable log,
`filter_items_posted_today` removes exactly the items whose (stringified)
SKU was collected from some well-formed log entry whose timestamp parsed to
the current day, keeps all others, and preserves order; a SKU is collected
from the log exactly when a well-formed entry of the current day lists it
as a non-empty SKU — an entry of any other day (e.g. yesterday) never
contributes. -/
theorem C5_same_day_dedup (today : Nat) (lines : List LogLine)
    (items : List Item) :
    filter_items_posted_today today (.content lines) items
      = items.filter
          (fun it => !((postedSkus today lines).contains (pyStr it.sku)))
  ∧ (∀ s, s ∈ postedSkus today lines ↔
      ∃ e, LogLine.entry e ∈ lines ∧ e.ts = .parsed today ∧
        some s ∈ e.inf_skus ∧ s ≠ "")
  ∧ List.Sublist
      (filter_items_posted_today today (.content lines) items) items := by
  have hfil : filter_items_posted_today today (.content lines) items
      = items.filter
          (fun it => !((postedSkus today lines).contains (pyStr it.sku))) := by
    by_cases hi : items.isEmpty
    · have h0 : items = [] := by simpa using hi
      subst h0
      simp [filter_items_posted_today]
    · show (if items.isEmpty then [] else _) = _
      rw [if_neg hi]
      show (if (postedSkus today lines).isEmpty then items else _) = _
      by_cases hp : (postedSkus today lines).isEmpty
      · rw [if_pos hp]
        have hp2 : postedSkus today lines = [] := by simpa using hp
        symm
        apply List.filter_eq_self.mpr
        intro a ha
        rw [hp2]
        rfl
      · rw [if_neg hp]
  exact ⟨hfil, fun s => mem_postedSkus today lines s,
    hfil ▸ List.filter_sublist items⟩

/-- Witness for C5: with a log entry of the current day listing SKU "A",
filtering the batch [A, B] yields exactly [B]; with the same entry dated
the previous day, the batch passes unchanged. -/
theorem C5_same_day_dedup_witness :
    filter_items_posted_today 7
        (.content [LogLine.entry ⟨.parsed 7, [some "A"]⟩])
        [⟨some "A"⟩, ⟨some "B"⟩] = [⟨some "B"⟩]
  ∧ filter_items_posted_today 7
        (.content [LogLine.entry ⟨.parsed 6, [some "A"]⟩])
        [⟨some "A"⟩, ⟨some "B"⟩] = [⟨some "A"⟩, ⟨some "B"⟩] := by
  constructor
  · exact (C5_same_day_dedup 7 [LogLine.entry ⟨.parsed 7, [some "A"]⟩]
      [⟨some "A"⟩, ⟨some "B"⟩]).1.trans (by decide)
  · exact (C5_same_day_dedup 7 [LogLine.entry ⟨.parsed 6, [some "A"]⟩]
      [⟨some "A"⟩, ⟨some "B"⟩]).1.trans (by decide)

theorem waitLoop_some_spec (p : Nat → Bool) :
    ∀ (fuel start t : Nat), waitLoop p fuel start = some t →
      p t = true ∧ start ≤ t ∧ t < start + fuel ∧
        ∀ u, start ≤ u → u < t → p u = false := by
  intro fuel
  induction fuel with
  | zero => intro start t h; simp [waitLoop] at h
  | succ n ih =>
    intro start t h
    by_cases hp : p start = true
    · have hh : some start = some t := by
        rw [← h]
        simp [waitLoop, hp]
      injection hh with hh
      subst hh
      exact ⟨hp, Nat.le_refl _, by omega, fun u hu1 hu2 => by omega⟩
    · have hh : waitLoop p n (start + 1) = some t := by
        rw [← h]
        simp [waitLoop, hp]
      obtain ⟨h1, h2, h3, h4⟩ := ih (start + 1) t hh
      refine ⟨h1, by omega, by omega, fun u hu1 hu2 => ?_⟩
      by_cases hu : u = start
      · subst hu
        exact Bool.eq_false_iff.mpr hp
      · exact h4 u (by omega) hu2

theorem waitLoop_isSome_spec (p : Nat → Bool) :
    ∀ (fuel start : Nat),
      (∃ t, waitLoop p fuel start = some t) ↔
        ∃ t, start ≤ t ∧ t < start + fuel ∧ p t = true := by
  intro fuel
  induction fuel with
  | zero =>
    intro start
    constructor
    · rintro ⟨t, h⟩; simp [waitLoop] at h
    · rintro ⟨t, h1, h2, -⟩; omega
  | succ n ih =>
    intro start
    by_cases hp : p start = true
    · constructor
      · rintro ⟨t, -⟩
        exact ⟨start, Nat.le_refl _, by omega, hp⟩
      · intro _
        exact ⟨start, by simp [waitLoop, hp]⟩
    · constructor
      · rintro ⟨t, h⟩
        have hh : waitLoop p n (start + 1) = some t := by
          rw [← h]; simp [waitLoop, hp]
        obtain ⟨t2, h1, h2, h3⟩ := (ih (start + 1)).mp ⟨t, hh⟩
        exact ⟨t2, by omega, by omega, h3⟩
      · rintro ⟨t, h1, h2, h3⟩
        have ht : start + 1 ≤ t := by
          rcases Nat.eq_or_lt_of_le h1 with h | h
          · subst h; exact absurd h3 (by simp [hp])
          · omega
        obtain ⟨t2, h4⟩ := (ih (start + 1)).mpr ⟨t, ht, by omega, h3⟩
        refine ⟨t2, ?_⟩
        simp [waitLoop, hp, h4]

theorem tablePred_iff_amendedCond (pre cur : Option String) :
    tablePred (snapshotText pre) cur = true ↔ amendedCond pre cur := by
  cases cur with
  | none => simp [tablePred, amendedCond, bne_iff_ne]
  | some t => simp [tablePred, amendedCond, bne_iff_ne]

/-- Counterexample to claim C3 as stated: completion is claimed "exactly
when" the first row's text content differs from the snapshot (or a row
appears where none existed).  With snapshot "a" and a post-action first row
whose text is "a " (trailing space), the stated condition holds at every
poll tick, yet the wait never completes: the code compares
whitespace-trimmed text, and the trimmed texts are equal. -/
theorem C3_counterexample_raw_text :
    statedCond (some "a") (some "a ")
  ∧ (∀ t, t < 5 → statedCond (some "a") ((fun _ => some "a ") t))
  ∧ wait_for_table_change (some "a") (fun _ => some "a ") 5 = none := by
  refine ⟨Or.inl ⟨"a ", rfl, by decide⟩,
    fun t _ => Or.inl ⟨"a ", rfl, by decide⟩, by decide⟩

/-- Claim C3 (amended): `wait_for_table_change` snapshots the first row's
text (empty-string sentinel when no row exists) and completes before its
timeout exactly when, at some poll tick within the bound, the first row's
whitespace-trimmed text differs from the trimmed snapshot or every row has
disappeared while the snapshot was non-empty; on completion the firing tick
is the earliest such tick, and in particular the wait never returns while a
first row's text still equals the pre-action snapshot. -/
theorem C3_mutation_wait_amended (pre : Option String)
    (trace : Nat → Option String) (T : Nat) :
    (∀ t, wait_for_table_change pre trace T = some t →
        amendedCond pre (trace t)
      ∧ (∀ u, u < t → ¬ amendedCond pre (trace u))
      ∧ (∀ s, trace t = some s → s ≠ snapshotText pre))
  ∧ ((∃ t, wait_for_table_change pre trace T = some t) ↔
      ∃ t, t < T ∧ amendedCond pre (trace t)) := by
  constructor
  · intro t h
    obtain ⟨h1, -, -, h4⟩ := waitLoop_some_spec _ T 0 t h
    have hc : amendedCond pre (trace t) :=
      (tablePred_iff_amendedCond pre (trace t)).mp h1
    refine ⟨hc, ?_, ?_⟩
    · intro u hu hcu
      have := h4 u (Nat.zero_le u) hu
      rw [(tablePred_iff_amendedCond pre (trace u)).mpr hcu] at this
      exact absurd this (by decide)
    · intro s hs hne
      rcases hc with ⟨s2, hs2, htrim⟩ | ⟨hnone, -⟩
      · rw [hs] at hs2
        injection hs2 with hs2
        subst hs2
        exact htrim (by rw [hne])
      · rw [hs] at hnone
        exact absurd hnone (by simp)
  · constructor
    · rintro ⟨t, h⟩
      obtain ⟨h1, -, h3, -⟩ := waitLoop_some_spec _ T 0 t h
      exact ⟨t, by omega, (tablePred_iff_amendedCond pre (trace t)).mp h1⟩
    · rintro ⟨t, h1, h2⟩
      exact (waitLoop_isSome_spec _ T 0).mpr
        ⟨t, Nat.zero_le t, by omega,
          (tablePred_iff_amendedCond pre (trace t)).mpr h2⟩

/-- Witness for C3 (amended) at a concrete delayed re-render: with no
pre-action row and a first row appearing at tick 1 with text "row1", the
wait completes, the firing tick satisfies the amended condition, and no
earlier tick does. -/
theorem C3_mutation_wait_witness :
    (∃ t, wait_for_table_change none
        (fun t => if t = 0 then none else some "row1") 5 = some t)
  ∧ amendedCond none (some "row1")
  ∧ ¬ amendedCond none none := by
  refine ⟨?_, ?_, ?_⟩
  · exact (C3_mutation_wait_amended none
      (fun t => if t = 0 then none else some "row1") 5).2.mpr
      ⟨1, by omega, Or.inl ⟨"row1", rfl, by decide⟩⟩
  · have h := (C3_mutation_wait_amended none
      (fun t => if t = 0 then none else some "row1") 5).1 1 (by decide)
    simpa using h.1
  · have h := (C3_mutation_wait_amended none
      (fun t => if t = 0 then none else some "row1") 5).1 1 (by decide)
    have h0 := h.2.1 0 (by omega)
    simpa using h0

theorem digit_ne_of (c d : Char) (h : c.isDigit = true)
    (hd : d.isDigit = false) : c ≠ d := by
  intro he
  subst he
  rw [h] at hd
  exact absurd hd (by decide)

theorem digit_not_ws (c : Char) (h : c.isDigit = true) :
    c.isWhitespace = false := by
  by_cases hw : c.isWhitespace = true
  · simp only [Char.isWhitespace, Bool.or_eq_true, decide_eq_true_eq] at hw
    rcases hw with ((h1 | h1) | h1) | h1 <;>
      (subst h1; exact absurd h (by decide))
  · exact Bool.eq_false_iff.mpr hw

theorem dropWhile_eq_self_of (p : Char → Bool) (l : List Char)
    (h : ∀ c ∈ l, p c = false) : l.dropWhile p = l := by
  cases l with
  | nil => rfl
  | cons a t => simp [List.dropWhile, h a (List.mem_cons_self a t)]

theorem trimWs_eq_self (l : List Char) (h : ∀ c ∈ l, c.isWhitespace = false) :
    trimWs l = l := by
  unfold trimWs
  rw [dropWhile_eq_self_of _ l h,
    dropWhile_eq_self_of _ l.reverse (fun c hc => h c (List.mem_reverse.mp hc)),
    List.reverse_reverse]

theorem udRest_all_digits (l : List Char) (h : ∀ c ∈ l, c.isDigit = true) :
    udRest l = true := by
  induction l with
  | nil => rfl
  | cons a t ih =>
    have ha := h a (List.mem_cons_self a t)
    have ht := fun c hc => h c (List.mem_cons_of_mem a hc)
    cases t with
    | nil =>
      have hred : udRest [a]
          = if a.isDigit then udRest [] else if a = '_' then false
            else false := rfl
      rw [hred, if_pos ha]
      rfl
    | cons b t2 =>
      have hred : udRest (a :: b :: t2)
          = if a.isDigit then udRest (b :: t2)
            else if a = '_' then b.isDigit && udRest t2
            else false := rfl
      rw [hred, if_pos ha]
      exact ih ht

theorem ud_all_digits (l : List Char) (hne : l ≠ [])
    (h : ∀ c ∈ l, c.isDigit = true) : ud l = true := by
  cases l with
  | nil => exact absurd rfl hne
  | cons a t =>
    simp [ud, h a (List.mem_cons_self a t),
      udRest_all_digits t (fun c hc => h c (List.mem_cons_of_mem a hc))]

theorem stripUnd_all_digits (l : List Char) (h : ∀ c ∈ l, c.isDigit = true) :
    stripUnd l = l := by
  unfold stripUnd
  apply List.filter_eq_self.mpr
  intro a ha
  exact decide_eq_true (digit_ne_of a '_' (h a ha) (by decide))

theorem pyIntParseL_digits (l : List Char) (hne : l ≠ [])
    (h : ∀ c ∈ l, c.isDigit = true) :
    pyIntParseL l = some ((digitsVal l : Nat) : Int) := by
  cases l with
  | nil => exact absurd rfl hne
  | cons a t =>
    have ha := h a (List.mem_cons_self a t)
    have h1 : a ≠ '+' := digit_ne_of a '+' ha (by decide)
    have h2 : a ≠ '-' := digit_ne_of a '-' ha (by decide)
    show (if a = '+' then _ else if a = '-' then _
      else if ud (a :: t) then some ((digitsVal (stripUnd (a :: t)) : Nat) : Int)
      else none) = _
    rw [if_neg h1, if_neg h2,
      if_pos (ud_all_digits (a :: t) (by simp) h),
      stripUnd_all_digits (a :: t) h]

theorem clean_comma_literal (s : String)
    (hs : commaSeparatedIntegerSpec s = true) :
    clean_numeric_string (.pystr s)
      = ((digitsVal (s.toList.filter (fun c => c ≠ ',')) : Nat) : Int) := by
  have hsplit : (s.toList.all (fun c => c.isDigit || c = ',')) = true ∧
      (s.toList.any (fun c => c.isDigit)) = true := by
    simpa [commaSeparatedIntegerSpec, Bool.and_eq_true] using hs
  have hall : ∀ c ∈ s.toList, c.isDigit = true ∨ c = ',' := by
    intro c hc
    simpa using List.all_eq_true.mp hsplit.1 c hc
  have hany : ∃ c, c ∈ s.toList ∧ c.isDigit = true := by
    obtain ⟨c, hc, hcd⟩ := List.any_eq_true.mp hsplit.2
    exact ⟨c, hc, by simpa using hcd⟩
  have hdig : ∀ c ∈ s.toList.filter (fun c => c ≠ ','), c.isDigit = true := by
    intro c hc
    rw [List.mem_filter] at hc
    obtain ⟨hc1, hc2⟩ := hc
    rcases hall c hc1 with h3 | h3
    · exact h3
    · exact absurd h3 (by simpa using hc2)
  have hne : s.toList.filter (fun c => c ≠ ',') ≠ [] := by
    obtain ⟨c, hc, hcd⟩ := hany
    intro h0
    have hmem : c ∈ s.toList.filter (fun c => c ≠ ',') := by
      rw [List.mem_filter]
      exact ⟨hc, by simp [digit_ne_of c ',' hcd (by decide)]⟩
    rw [h0] at hmem
    exact absurd hmem (List.not_mem_nil c)
  show (pyIntParse (removeCommas s)).getD 0 = _
  have hrm : (removeCommas s).toList = s.toList.filter (fun c => c ≠ ',') := rfl
  unfold pyIntParse
  rw [hrm, trimWs_eq_self _ (fun c hc => digit_not_ws c (hdig c hc)),
    pyIntParseL_digits _ hne hdig]
  rfl

/-- Counterexample to claim C10 as stated: the string " 5 " is no
optionally comma-separated integer literal, so the claim demands the result
0; but Python's `int` strips surrounding whitespace, and the code returns 5. -/
theorem C10_counterexample_whitespace :
    commaSeparatedIntegerSpec " 5 " = false
  ∧ clean_numeric_string (.pystr " 5 ") = 5
  ∧ (5 : Int) ≠ 0 := by
  exact ⟨by decide, by decide, by decide⟩

/-- Claim C10 (amended): `clean_numeric_string` returns the comma-stripped
integer for every comma-separated integer literal, returns 0 for `None` and
for non-string values (whose missing `.replace` raises the caught
`AttributeError`), and for every other string returns the value of Python's
`int` applied after comma removal — a parse that also tolerates surrounding
whitespace, a sign, and underscores between digits — with 0 exactly when
that parse fails. -/
theorem C10_clean_numeric_amended :
    (∀ s, commaSeparatedIntegerSpec s = true →
      clean_numeric_string (.pystr s)
        = ((digitsVal (s.toList.filter (fun c => c ≠ ',')) : Nat) : Int))
  ∧ clean_numeric_string .pynone = 0
  ∧ clean_numeric_string .nonStrValue = 0
  ∧ (∀ s, clean_numeric_string (.pystr s)
      = (pyIntParse (removeCommas s)).getD 0)
  ∧ (∀ s, pyIntParse (removeCommas s) = none →
      clean_numeric_string (.pystr s) = 0) := by
  refine ⟨clean_comma_literal, rfl, rfl, fun s => rfl, fun s h => ?_⟩
  show (pyIntParse (removeCommas s)).getD 0 = 0
  rw [h]
  rfl

/-- Witness for C10 (amended): "1,234" is a comma-separated literal and
yields 1234; "abc" fails the integer parse and yields 0. -/
theorem C10_clean_numeric_witness :
    clean_numeric_string (.pystr "1,234") = 1234 ∧
    clean_numeric_string (.pystr "abc") = 0 := by
  constructor
  · exact (C10_clean_numeric_amended.1 "1,234" (by decide)).trans (by decide)
  · exact C10_clean_numeric_amended.2.2.2.2 "abc" (by decide)
